import Mathlib

/-!
# Verification of `create_test_conflict.py`

A shallow embedding of the repository's single script, which builds a git
merge-conflict fixture: it checks preconditions, resolves the base branch,
commits an initial fixture file, creates a worktree on a fresh
`almondcoder/test-conflict-<token>` branch, and commits divergent versions
of the fixture file on the two branches.

The embedding records every externally visible effect (prints, git
invocations, file writes, directory creation/removal) in a trace, and is
parameterised by an executor for the external `git` commands.  Two
executors are provided: `oracleExec`, which returns outcomes from an
arbitrary oracle (used for claims about control flow and error
propagation), and `gitExec`, an operational model of the git commands the
script invokes (used for claims about branches and commit counts).
-/

namespace CreateTestConflict

/-- Kind of the filesystem entry named `.git` under the repository root
(`.git` is a directory in an ordinary checkout and a file in a linked
worktree).  The script only tests existence, never the kind. -/
inductive EntryKind where
  | dir
  | file
deriving DecidableEq, Repr

/-- One externally visible effect of the script. -/
inductive Action where
  | print (s : String)
  | gitCmd (cmd : List String) (cwd : Option String)
  | writeFile (path content : String)
  | mkdirParents (path : String)
  | rmtree (path : String)
deriving DecidableEq, Repr

/-- How the `main` procedure ends: a normal `return`, or an uncaught
`CalledProcessError` carrying the failing command's stderr. -/
inductive MainResult where
  | normalReturn
  | raised (stderr : String)
deriving DecidableEq, Repr

/-- Python process exit status: `main` returning normally exits 0, an
uncaught exception terminates the interpreter with a non-zero status. -/
def exitStatus : MainResult → Nat
  | .normalReturn => 0
  | .raised _ => 1

/-- Environment of one run: facts about the filesystem and the random
token that the script reads but does not control.
`token` models `str(uuid.uuid4())[:8]`. -/
structure Env where
  repoExists : Bool
  gitEntry : Option EntryKind
  home : String
  token : String
  worktreePathExists : Bool

/-- State threaded through the run: the executor state `σ` (the modelled
git repository, or an oracle counter) plus the trace of effects so far. -/
structure StepState (σ : Type) where
  git : σ
  trace : List Action

/-- An executor for external git commands: given the executor state, the
command and the working directory (`none` means the script's constant
`REPO_PATH`), return the new state and captured stdout, or the stderr of a
non-zero exit. -/
def ExecFn (σ : Type) := σ → List String → Option String → Except String (σ × String)

def emit {σ : Type} (s : StepState σ) (a : Action) : StepState σ :=
  { s with trace := s.trace ++ [a] }

def emits {σ : Type} (s : StepState σ) (l : List Action) : StepState σ :=
  { s with trace := s.trace ++ l }

/-- `REPO_PATH = Path("/Users/user/projects/website")` -/
def REPO_PATH : String := "/Users/user/projects/website"

/-- `TEST_FILE = "abc.txt"` -/
def TEST_FILE : String := "abc.txt"

/-- Python whitespace, as recognised by `str.strip()`. -/
def isPySpace (c : Char) : Bool :=
  c = ' ' || c = '\t' || c = '\n' || c = '\r' || c = '\x0b' || c = '\x0c'

/-- Python's `str.strip()`: drop leading and trailing whitespace. -/
def pyStrip (s : String) : String :=
  String.mk (((s.data.dropWhile isPySpace).reverse.dropWhile isPySpace).reverse)

/-- `' '.join(cmd)` -/
def joinSpace (cmd : List String) : String := String.intercalate " " cmd

/-- `pathlib`'s `/` operator (all paths the script joins are relative
names appended to absolute paths). -/
def pjoin (a b : String) : String := a ++ "/" ++ b

/-- `pathlib.Path.name`: the final path component. -/
def pathName (p : String) : String :=
  String.mk ((p.data.reverse.takeWhile (fun c => c ≠ '/')).reverse)

/-- `"=" * 50` -/
def eqLine : String := String.mk (List.replicate 50 '=')

/--
```
def run_git_command(cmd, cwd=None):
    try:
        result = subprocess.run(cmd, cwd=cwd or REPO_PATH, capture_output=True, text=True, check=True)
        return result.stdout.strip()
    except subprocess.CalledProcessError as e:
        print(f"❌ Git command failed: {' '.join(cmd)}")
        print(f"   Error: {e.stderr}")
        raise
```
On success, returns the new state and the stripped stdout; on failure,
returns the state whose trace ends with the two diagnostic prints,
together with the re-raised error's stderr.
-/
def run_git_command {σ : Type} (exec : ExecFn σ) (cmd : List String) (cwd : Option String)
    (s : StepState σ) : Except (StepState σ × String) (StepState σ × String) :=
  let s := emit s (.gitCmd cmd cwd)
  match exec s.git cmd cwd with
  | .ok (g, out) => .ok ({ s with git := g }, pyStrip out)
  | .error stderr =>
      .error (emits s [.print ("❌ Git command failed: " ++ joinSpace cmd),
                       .print ("   Error: " ++ stderr)], stderr)

/-- Run one git command and continue with `k` on success; on failure the
error propagates out of `main` as an uncaught exception. -/
def runGitStep {σ : Type} (exec : ExecFn σ) (cmd : List String) (cwd : Option String)
    (s : StepState σ) (k : StepState σ × String → StepState σ × MainResult) :
    StepState σ × MainResult :=
  match run_git_command exec cmd cwd s with
  | .ok r => k r
  | .error (s, e) => (s, .raised e)

/-- `initial_content` (lines 83–87 of the script). -/
def initial_content : String :=
  "Line 1: Initial content\nLine 2: This will cause a conflict\nLine 3: Because both branches will modify this\nLine 4: Final line\n"

/-- `almond_content` (lines 122–126 of the script). -/
def almond_content : String :=
  "Line 1: Initial content\nLine 2: ALMONDCODER VERSION - This is the AI\x27s change\nLine 3: ALMONDCODER VERSION - Modified by the assistant\nLine 4: Final line\n"

/-- `main_content` (lines 137–141 of the script). -/
def main_content : String :=
  "Line 1: Initial content\nLine 2: MAIN VERSION - This is the manual change\nLine 3: MAIN VERSION - Modified directly on main\nLine 4: Final line\n"

/-- The summary block printed at the end of a successful run
(lines 149–168 of the script). -/
def summaryPrints (main_branch almond_branch worktree_path : String) : List Action :=
  [ .print ("\n" ++ eqLine),
    .print "✅ Merge conflict scenario created successfully!",
    .print "\n📋 What was created:",
    .print ("   • File: " ++ TEST_FILE),
    .print ("   • Main branch: " ++ main_branch ++ " (with MAIN VERSION changes)"),
    .print ("   • Worktree branch: " ++ almond_branch ++ " (with ALMONDCODER VERSION changes)"),
    .print ("   • Worktree location: " ++ worktree_path),
    .print "\n🧪 To test in AlmondCoder:",
    .print ("   1. Open the project: " ++ REPO_PATH),
    .print "   2. Go to the Overview tab",
    .print ("   3. Drag the \x27" ++ almond_branch ++ "\x27 node onto \x27" ++ main_branch ++ "\x27"),
    .print "   4. Click \x27Merge Changes\x27",
    .print "   5. The conflict modal should appear!",
    .print "\n🧹 To clean up later:",
    .print ("   cd " ++ REPO_PATH),
    .print ("   git worktree remove " ++ worktree_path),
    .print ("   git branch -D " ++ almond_branch),
    .print "   git reset --hard HEAD~2  # Remove test commits",
    .print ("   rm " ++ TEST_FILE),
    .print "" ]

/-- Steps 3–7 of `main` (lines 76–168): everything after the base branch
`main_branch` has been resolved. -/
def stepAfterBranch {σ : Type} (exec : ExecFn σ) (env : Env) (main_branch : String)
    (s : StepState σ) : StepState σ × MainResult :=
  let s := emit s (.print ("✅ Working on branch: " ++ main_branch))
  let test_file_path := pjoin REPO_PATH TEST_FILE
  let s := emit s (.print ("\n📝 Creating test file: " ++ TEST_FILE))
  let s := emit s (.writeFile test_file_path initial_content)
  runGitStep exec ["git", "add", TEST_FILE] none s (fun (s, _) =>
  runGitStep exec ["git", "commit", "-m", "Add initial abc.txt file"] none s (fun (s, _) =>
  let s := emit s (.print ("✅ Committed " ++ TEST_FILE ++ " to " ++ main_branch))
  let short_uuid := env.token
  let almond_branch := "almondcoder/test-conflict-" ++ short_uuid
  let worktree_name := "test-conflict-" ++ short_uuid
  let almondcoder_dir := pjoin env.home ".almondcoder"
  let project_name := pathName REPO_PATH
  let project_worktree_dir := pjoin almondcoder_dir project_name
  let worktree_path := pjoin project_worktree_dir worktree_name
  let s := emit s (.mkdirParents project_worktree_dir)
  let s := emit s (.print ("\n🌿 Creating worktree with branch: " ++ almond_branch))
  let s := emit s (.print ("📂 Worktree path: " ++ worktree_path))
  let s := if env.worktreePathExists then
      emits s [.print ("⚠️  Removing existing worktree directory: " ++ worktree_path),
               .rmtree worktree_path]
    else s
  runGitStep exec ["git", "worktree", "add", "-b", almond_branch, worktree_path, main_branch]
      none s (fun (s, _) =>
  let s := emit s (.print ("✅ Created worktree at " ++ worktree_path))
  let worktree_test_file := pjoin worktree_path TEST_FILE
  let s := emit s (.print ("\n✏️  Modifying " ++ TEST_FILE ++ " in worktree..."))
  let s := emit s (.writeFile worktree_test_file almond_content)
  runGitStep exec ["git", "add", TEST_FILE] (some worktree_path) s (fun (s, _) =>
  runGitStep exec ["git", "commit", "-m", "Modify abc.txt in almondcoder branch"]
      (some worktree_path) s (fun (s, _) =>
  let s := emit s (.print ("✅ Modified and committed " ++ TEST_FILE ++ " in " ++ almond_branch))
  let s := emit s (.print ("\n🔄 Creating conflicting change in " ++ main_branch))
  let s := emit s (.writeFile test_file_path main_content)
  runGitStep exec ["git", "add", TEST_FILE] none s (fun (s, _) =>
  runGitStep exec ["git", "commit", "-m", "Modify abc.txt on main branch (conflicting)"]
      none s (fun (s, _) =>
  let s := emit s (.print ("✅ Created conflicting change in " ++ main_branch))
  let s := emits s (summaryPrints main_branch almond_branch worktree_path)
  (s, MainResult.normalReturn))))))))

/-- The `main()` procedure (lines 41–168): precondition checks, branch
resolution with its checkout fallback chain, then `stepAfterBranch`. -/
def mainRun {σ : Type} (exec : ExecFn σ) (env : Env) (g0 : σ) : StepState σ × MainResult :=
  let s : StepState σ := ⟨g0, []⟩
  let s := emit s (.print "🔧 AlmondCoder Merge Conflict Test Setup (Worktree Version)")
  let s := emit s (.print eqLine)
  if env.repoExists = false then
    (emits s [.print ("❌ Repository not found: " ++ REPO_PATH),
              .print "   Please create the repository first."], .normalReturn)
  else if env.gitEntry.isNone then
    (emits s [.print ("❌ Not a git repository: " ++ REPO_PATH),
              .print ("   Please initialize git first: cd " ++ REPO_PATH ++ " && git init")],
     .normalReturn)
  else
    let s := emit s (.print ("✅ Found git repository: " ++ REPO_PATH))
    runGitStep exec ["git", "branch", "--show-current"] none s (fun (s, current_branch) =>
      let s := emit s (.print ("📍 Current branch: " ++ current_branch))
      if ["main", "master"].contains current_branch then
        stepAfterBranch exec env current_branch s
      else
        let s := emit s (.print "⚠️  Not on main/master. Switching to main...")
        match run_git_command exec ["git", "checkout", "main"] none s with
        | .ok (s, _) => stepAfterBranch exec env "main" s
        | .error (s, _) =>
          match run_git_command exec ["git", "checkout", "master"] none s with
          | .ok (s, _) => stepAfterBranch exec env "master" s
          | .error (s, _) =>
            (emit s (.print "❌ Could not switch to main/master branch"), .normalReturn))

/-- Operational model of the git repository state, at the level of detail
the script's commands need: each branch's commit history (newest first,
commits named by allocation order), the branch checked out in the primary
working tree, the branch attached to each registered secondary working
tree, and the next fresh commit name. -/
structure GitState where
  branches : String → Option (List Nat)
  current : String
  worktrees : String → Option String
  nextId : Nat

/-- The branch that a command run with working directory `cwd` operates
on: the primary checkout's branch for `cwd = none` (the script passes
`cwd=None`, meaning `REPO_PATH`), else the branch of the registered
worktree at that path. -/
def branchAt (g : GitState) (cwd : Option String) : String :=
  match cwd with
  | none => g.current
  | some p => (g.worktrees p).getD ""

/-- Semantics of the git commands the script invokes:
`branch --show-current` prints the current branch (with git's trailing
newline); `checkout` switches the primary checkout to an existing branch
and fails otherwise; `add` stages (no modelled effect); `commit -m`
appends a fresh commit to the branch of the working directory;
`worktree add -b <br> <path> <base>` fails if the branch name already
exists or the path is already a registered worktree, and otherwise
creates the branch at `<base>`'s tip and registers the worktree. -/
def gitExec : ExecFn GitState := fun g cmd cwd =>
  match cmd with
  | ["git", "branch", "--show-current"] => .ok (g, branchAt g cwd ++ "\n")
  | ["git", "checkout", b] =>
      match g.branches b with
      | some _ => .ok ({ g with current := b }, "")
      | none => .error ("error: pathspec \x27" ++ b ++ "\x27 did not match any file(s) known to git")
  | ["git", "add", _] => .ok (g, "")
  | ["git", "commit", "-m", _] =>
      match g.branches (branchAt g cwd) with
      | some cs =>
          .ok ({ g with
                   branches := fun b => if b = branchAt g cwd then some (g.nextId :: cs)
                                        else g.branches b,
                   nextId := g.nextId + 1 }, "")
      | none => .error "error: commit on unknown branch"
  | ["git", "worktree", "add", "-b", br, path, base] =>
      match g.branches br with
      | some _ => .error ("fatal: a branch named \x27" ++ br ++ "\x27 already exists")
      | none =>
          match g.worktrees path with
          | some _ => .error ("fatal: \x27" ++ path ++ "\x27 is already registered")
          | none =>
              match g.branches base with
              | some cs =>
                  .ok ({ g with
                           branches := fun b => if b = br then some cs else g.branches b,
                           worktrees := fun p => if p = path then some br else g.worktrees p }, "")
              | none => .error ("fatal: invalid reference: " ++ base)
  | _ => .error "unsupported command"

/-- An executor returning outcomes from an arbitrary oracle `f`, keyed by
the invoked command (it carries no state of its own). -/
def oracleExec (f : List String → Except String String) : ExecFn Unit := fun _ cmd _ =>
  match f cmd with
  | .ok out => .ok ((), out)
  | .error e => .error e

/-- The feature branch name built from the run's random token. -/
def almondBranch (t : String) : String := "almondcoder/test-conflict-" ++ t

/-- The computed worktree path
`~/.almondcoder/<repo-name>/test-conflict-<token>`. -/
def wtPath (env : Env) : String :=
  pjoin (pjoin (pjoin env.home ".almondcoder") (pathName REPO_PATH)) ("test-conflict-" ++ env.token)

/-- The git commands recorded in a trace, in order. -/
def gitCmdsOf (t : List Action) : List (List String) :=
  t.filterMap (fun a => match a with | .gitCmd c _ => some c | _ => none)

/-- A hexadecimal digit as produced by `uuid.uuid4()`'s string form. -/
def isHexDigit (c : Char) : Bool := c.isDigit || ('a' ≤ c && c ≤ 'f')

/-- The branch-name pattern `almondcoder/test-conflict-<8-hex-chars>`. -/
def branchPattern (s : String) : Prop :=
  ∃ t, s = "almondcoder/test-conflict-" ++ t ∧ t.length = 8 ∧ t.data.all isHexDigit

/-- The parent directory `~/.almondcoder/<repo-name>` of the worktree path. -/
def wtParent (env : Env) : String := pjoin (pjoin env.home ".almondcoder") (pathName REPO_PATH)

/-- Actions 1–11 of a successful run: banner, precondition report, branch
query, fixture write and the initial commit. -/
def tracePre (base : String) : List Action :=
  [ .print "🔧 AlmondCoder Merge Conflict Test Setup (Worktree Version)",
    .print eqLine,
    .print ("✅ Found git repository: " ++ REPO_PATH),
    .gitCmd ["git", "branch", "--show-current"] none,
    .print ("📍 Current branch: " ++ base),
    .print ("✅ Working on branch: " ++ base),
    .print ("\n📝 Creating test file: " ++ TEST_FILE),
    .writeFile (pjoin REPO_PATH TEST_FILE) initial_content,
    .gitCmd ["git", "add", TEST_FILE] none,
    .gitCmd ["git", "commit", "-m", "Add initial abc.txt file"] none,
    .print ("✅ Committed " ++ TEST_FILE ++ " to " ++ base) ]

/-- The two prints between the `mkdir` and the optional stale-directory
removal. -/
def traceMid (env : Env) : List Action :=
  [ .print ("\n🌿 Creating worktree with branch: " ++ almondBranch env.token),
    .print ("📂 Worktree path: " ++ wtPath env) ]

/-- The warning print and recursive removal of a stale worktree directory. -/
def traceRm (env : Env) : List Action :=
  [ .print ("⚠️  Removing existing worktree directory: " ++ wtPath env),
    .rmtree (wtPath env) ]

/-- Everything after the `git worktree add` of a successful run. -/
def tracePost (env : Env) (base : String) : List Action :=
  [ .print ("✅ Created worktree at " ++ wtPath env),
    .print ("\n✏️  Modifying " ++ TEST_FILE ++ " in worktree..."),
    .writeFile (pjoin (wtPath env) TEST_FILE) almond_content,
    .gitCmd ["git", "add", TEST_FILE] (some (wtPath env)),
    .gitCmd ["git", "commit", "-m", "Modify abc.txt in almondcoder branch"] (some (wtPath env)),
    .print ("✅ Modified and committed " ++ TEST_FILE ++ " in " ++ almondBranch env.token),
    .print ("\n🔄 Creating conflicting change in " ++ base),
    .writeFile (pjoin REPO_PATH TEST_FILE) main_content,
    .gitCmd ["git", "add", TEST_FILE] none,
    .gitCmd ["git", "commit", "-m", "Modify abc.txt on main branch (conflicting)"] none,
    .print ("✅ Created conflicting change in " ++ base) ]
  ++ summaryPrints base (almondBranch env.token) (wtPath env)

/-- The full effect trace of a successful run from a primary branch
`base`. -/
def specTrace (env : Env) (base : String) : List Action :=
  tracePre base
  ++ [.mkdirParents (wtParent env)]
  ++ traceMid env
  ++ (if env.worktreePathExists then traceRm env else [])
  ++ [.gitCmd ["git", "worktree", "add", "-b", almondBranch env.token, wtPath env, base] none]
  ++ tracePost env base

@[simp] lemma branchAt_none (g : GitState) : branchAt g none = g.current := rfl

@[simp] lemma branchAt_some (g : GitState) (p : String) :
    branchAt g (some p) = (g.worktrees p).getD "" := rfl

lemma gitExec_show (g : GitState) (cwd : Option String) :
    gitExec g ["git", "branch", "--show-current"] cwd = .ok (g, branchAt g cwd ++ "\n") := rfl

lemma gitExec_add (g : GitState) (f : String) (cwd : Option String) :
    gitExec g ["git", "add", f] cwd = .ok (g, "") := rfl

lemma gitExec_checkout (g : GitState) (b : String) (cwd : Option String) :
    gitExec g ["git", "checkout", b] cwd =
      (match g.branches b with
       | some _ => .ok ({ g with current := b }, "")
       | none => .error ("error: pathspec \x27" ++ b ++ "\x27 did not match any file(s) known to git")) :=
  rfl

lemma gitExec_commit (g : GitState) (m : String) (cwd : Option String) :
    gitExec g ["git", "commit", "-m", m] cwd =
      (match g.branches (branchAt g cwd) with
       | some cs =>
           .ok ({ g with
                    branches := fun b => if b = branchAt g cwd then some (g.nextId :: cs)
                                         else g.branches b,
                    nextId := g.nextId + 1 }, "")
       | none => .error "error: commit on unknown branch") := rfl

lemma gitExec_worktree (g : GitState) (br path base : String) (cwd : Option String) :
    gitExec g ["git", "worktree", "add", "-b", br, path, base] cwd =
      (match g.branches br with
       | some _ => .error ("fatal: a branch named \x27" ++ br ++ "\x27 already exists")
       | none =>
           match g.worktrees path with
           | some _ => .error ("fatal: \x27" ++ path ++ "\x27 is already registered")
           | none =>
               match g.branches base with
               | some cs =>
                   .ok ({ g with
                            branches := fun b => if b = br then some cs else g.branches b,
                            worktrees := fun p => if p = path then some br else g.worktrees p }, "")
               | none => .error ("fatal: invalid reference: " ++ base)) := rfl

lemma ne_of_length_ne {s t : String} (h : s.length ≠ t.length) : s ≠ t :=
  fun e => h (congrArg String.length e)

@[simp] lemma almond_ne_main (t : String) : "almondcoder/test-conflict-" ++ t ≠ "main" := by
  apply ne_of_length_ne
  rw [String.length_append]
  have h26 : ("almondcoder/test-conflict-" : String).length = 26 := rfl
  have h4 : ("main" : String).length = 4 := rfl
  omega

@[simp] lemma almond_ne_master (t : String) : "almondcoder/test-conflict-" ++ t ≠ "master" := by
  apply ne_of_length_ne
  rw [String.length_append]
  have h26 : ("almondcoder/test-conflict-" : String).length = 26 := rfl
  have h6 : ("master" : String).length = 6 := rfl
  omega

lemma strAppend_left_cancel {a t1 t2 : String} (h : a ++ t1 = a ++ t2) : t1 = t2 := by
  have h2 : a.data ++ t1.data = a.data ++ t2.data := congrArg String.data h
  exact String.ext (List.append_cancel_left h2)

@[simp] lemma pyStrip_main : pyStrip "main\n" = "main" := rfl

@[simp] lemma pyStrip_master : pyStrip "master\n" = "master" := rfl

@[simp] lemma contains_main : (["main", "master"].contains "main") = true := rfl

@[simp] lemma contains_master : (["main", "master"].contains "master") = true := rfl

@[simp] lemma main_ne_almond (t : String) : "main" ≠ "almondcoder/test-conflict-" ++ t :=
  Ne.symm (almond_ne_main t)

@[simp] lemma master_ne_almond (t : String) : "master" ≠ "almondcoder/test-conflict-" ++ t :=
  Ne.symm (almond_ne_master t)

/-- A successful run returns normally: from a valid environment, a primary
current branch, and no collision on the feature branch name or worktree
path, `main` reaches its summary and returns. -/
lemma mainRun_spec_result (env : Env) (g0 : GitState) (k : EntryKind) (cs : List Nat)
    (h1 : env.repoExists = true) (h2 : env.gitEntry = some k)
    (hb : g0.current = "main" ∨ g0.current = "master")
    (hcs : g0.branches g0.current = some cs)
    (hna : g0.branches (almondBranch env.token) = none)
    (hnw : g0.worktrees (wtPath env) = none) :
    (mainRun gitExec env g0).2 = .normalReturn := by
  simp only [almondBranch] at hna
  simp only [wtPath, wtParent, pjoin] at hnw
  rcases hb with hb | hb <;> rw [hb] at hcs <;>
    by_cases hw : env.worktreePathExists <;>
    simp [mainRun, stepAfterBranch, runGitStep, run_git_command, emit, emits,
      h1, h2, hb, hw, hcs, hna, hnw,
      gitExec_show, gitExec_add, gitExec_commit, gitExec_worktree, pjoin]

/-- Final repository state of a successful run: the primary checkout is
still on the base branch, exactly three commits were created
(`nextId + 3`), the base branch gained commits `nextId` and `nextId + 2`,
the feature branch holds `nextId + 1` on top of `nextId`, and the worktree
is registered on the feature branch. -/
lemma mainRun_spec_state (env : Env) (g0 : GitState) (k : EntryKind) (cs : List Nat)
    (h1 : env.repoExists = true) (h2 : env.gitEntry = some k)
    (hb : g0.current = "main" ∨ g0.current = "master")
    (hcs : g0.branches g0.current = some cs)
    (hna : g0.branches (almondBranch env.token) = none)
    (hnw : g0.worktrees (wtPath env) = none) :
    (mainRun gitExec env g0).1.git.current = g0.current ∧
    (mainRun gitExec env g0).1.git.nextId = g0.nextId + 3 ∧
    (mainRun gitExec env g0).1.git.branches (almondBranch env.token)
      = some ((g0.nextId + 1) :: g0.nextId :: cs) ∧
    (mainRun gitExec env g0).1.git.branches g0.current
      = some ((g0.nextId + 2) :: g0.nextId :: cs) ∧
    (mainRun gitExec env g0).1.git.worktrees (wtPath env) = some (almondBranch env.token) := by
  simp only [almondBranch] at hna ⊢
  simp only [wtPath, wtParent, pjoin] at hnw ⊢
  rcases hb with hb | hb <;> rw [hb] at hcs <;> rw [hb] <;>
    by_cases hw : env.worktreePathExists <;>
    simp +arith [mainRun, stepAfterBranch, runGitStep, run_git_command, emit, emits,
      h1, h2, hb, hw, hcs, hna, hnw,
      gitExec_show, gitExec_add, gitExec_commit, gitExec_worktree, pjoin]

/-- Frame conditions of a successful run: no branch other than the feature
branch and the base branch changes, and no worktree other than the newly
added one is registered. -/
lemma mainRun_spec_frame (env : Env) (g0 : GitState) (k : EntryKind) (cs : List Nat)
    (h1 : env.repoExists = true) (h2 : env.gitEntry = some k)
    (hb : g0.current = "main" ∨ g0.current = "master")
    (hcs : g0.branches g0.current = some cs)
    (hna : g0.branches (almondBranch env.token) = none)
    (hnw : g0.worktrees (wtPath env) = none) :
    (∀ b, b ≠ almondBranch env.token → b ≠ g0.current →
      (mainRun gitExec env g0).1.git.branches b = g0.branches b) ∧
    (∀ p, p ≠ wtPath env → (mainRun gitExec env g0).1.git.worktrees p = g0.worktrees p) := by
  simp only [almondBranch] at hna ⊢
  simp only [wtPath, wtParent, pjoin] at hnw ⊢
  rcases hb with hb | hb <;> rw [hb] at hcs <;> rw [hb] <;>
    by_cases hw : env.worktreePathExists <;>
    constructor <;> intro x hx1 <;> try intro hx2
  all_goals
    simp +arith [mainRun, stepAfterBranch, runGitStep, run_git_command, emit, emits,
      h1, h2, hb, hw, hcs, hna, hnw, hx1, *,
      gitExec_show, gitExec_add, gitExec_commit, gitExec_worktree, pjoin]

/-- The full effect trace of a successful run. -/
lemma mainRun_spec_trace (env : Env) (g0 : GitState) (k : EntryKind) (cs : List Nat)
    (h1 : env.repoExists = true) (h2 : env.gitEntry = some k)
    (hb : g0.current = "main" ∨ g0.current = "master")
    (hcs : g0.branches g0.current = some cs)
    (hna : g0.branches (almondBranch env.token) = none)
    (hnw : g0.worktrees (wtPath env) = none) :
    (mainRun gitExec env g0).1.trace = specTrace env g0.current := by
  simp only [almondBranch] at hna ⊢
  simp only [wtPath, wtParent, pjoin] at hnw ⊢
  rcases hb with hb | hb <;> rw [hb] at hcs <;> rw [hb] <;>
    by_cases hw : env.worktreePathExists <;>
    simp +arith [mainRun, stepAfterBranch, runGitStep, run_git_command, emit, emits,
      h1, h2, hb, hw, hcs, hna, hnw,
      specTrace, tracePre, traceMid, traceRm, tracePost, summaryPrints, wtParent, wtPath,
      almondBranch,
      gitExec_show, gitExec_add, gitExec_commit, gitExec_worktree, pjoin]

/-- A trace ends with a failed git command followed by the two diagnostic
prints of `run_git_command` and nothing else: the failing command is the
last external command (no retry), and no cleanup action follows (no
rollback). -/
def endsWithFailure (t : List Action) (e : String) : Prop :=
  ∃ pre c w, t = pre ++ [Action.gitCmd c w,
                         Action.print ("❌ Git command failed: " ++ joinSpace c),
                         Action.print ("   Error: " ++ e)]

lemma run_git_command_error {σ : Type} {exec : ExecFn σ} {cmd : List String}
    {cwd : Option String} {s s' : StepState σ} {e : String}
    (h : run_git_command exec cmd cwd s = .error (s', e)) :
    s'.trace = s.trace ++ [Action.gitCmd cmd cwd,
                           Action.print ("❌ Git command failed: " ++ joinSpace cmd),
                           Action.print ("   Error: " ++ e)] := by
  rw [run_git_command] at h
  cases hx : exec (emit s (Action.gitCmd cmd cwd)).git cmd cwd with
  | ok p => rw [hx] at h; cases h
  | error e2 =>
      rw [hx] at h
      simp only [Except.error.injEq, Prod.mk.injEq] at h
      obtain ⟨hs, he⟩ := h
      subst he
      rw [← hs]
      simp [emit, emits]

lemma runGitStep_raised {σ : Type} (exec : ExecFn σ) (cmd : List String) (cwd : Option String)
    (s : StepState σ) (k : StepState σ × String → StepState σ × MainResult) (e : String)
    (hk : ∀ r, (k r).2 = .raised e → endsWithFailure (k r).1.trace e) :
    (runGitStep exec cmd cwd s k).2 = .raised e →
    endsWithFailure (runGitStep exec cmd cwd s k).1.trace e := by
  rw [runGitStep]
  cases hr : run_git_command exec cmd cwd s with
  | ok r => exact hk r
  | error p =>
      obtain ⟨s', e'⟩ := p
      intro h
      simp only [MainResult.raised.injEq] at h
      subst h
      exact ⟨s.trace, cmd, cwd, run_git_command_error hr⟩

lemma stepAfterBranch_raised {σ : Type} (exec : ExecFn σ) (env : Env) (mb : String)
    (s : StepState σ) (e : String) :
    (stepAfterBranch exec env mb s).2 = .raised e →
    endsWithFailure (stepAfterBranch exec env mb s).1.trace e := by
  rw [stepAfterBranch]
  apply runGitStep_raised; rintro ⟨s1, o1⟩
  apply runGitStep_raised; rintro ⟨s2, o2⟩
  apply runGitStep_raised; rintro ⟨s3, o3⟩
  apply runGitStep_raised; rintro ⟨s4, o4⟩
  apply runGitStep_raised; rintro ⟨s5, o5⟩
  apply runGitStep_raised; rintro ⟨s6, o6⟩
  apply runGitStep_raised; rintro ⟨s7, o7⟩
  intro h
  exact absurd h (by simp)

/-- Any uncaught external-command failure leaves the trace ending with the
failing command and its two diagnostic prints, with nothing after them. -/
lemma mainRun_raised {σ : Type} (exec : ExecFn σ) (env : Env) (g0 : σ) (e : String) :
    (mainRun exec env g0).2 = .raised e →
    endsWithFailure (mainRun exec env g0).1.trace e := by
  rw [mainRun]
  by_cases h1 : env.repoExists = false
  · simp only [h1, if_true]
    intro h; exact absurd h (by simp)
  · simp only [h1, if_false]
    by_cases h2 : env.gitEntry.isNone
    · simp only [h2, if_true]
      intro h; exact absurd h (by simp)
    · simp only [h2, if_false]
      apply runGitStep_raised; rintro ⟨s1, cb⟩
      dsimp only
      by_cases hm : (["main", "master"].contains cb) = true
      · rw [if_pos hm]
        apply stepAfterBranch_raised
      · rw [if_neg hm]
        cases hr : run_git_command exec ["git", "checkout", "main"] none
            (emit (emit s1 (Action.print ("📍 Current branch: " ++ cb)))
              (Action.print "⚠️  Not on main/master. Switching to main...")) with
        | ok r =>
            obtain ⟨s2, o2⟩ := r
            apply stepAfterBranch_raised
        | error p =>
            obtain ⟨s2, e2⟩ := p
            dsimp only
            cases hr2 : run_git_command exec ["git", "checkout", "master"] none s2 with
            | ok r =>
                obtain ⟨s3, o3⟩ := r
                apply stepAfterBranch_raised
            | error p2 =>
                obtain ⟨s3, e3⟩ := p2
                intro h; exact absurd h (by simp)

/-- Splitting a character list at every occurrence of `sep` (the list of
lines of a file, when `sep` is the newline character). -/
def splitChar (sep : Char) : List Char → List (List Char)
  | [] => [[]]
  | c :: rest =>
      let r := splitChar sep rest
      if c = sep then [] :: r
      else
        match r with
        | [] => [[c]]
        | h :: t => (c :: h) :: t

/-- The lines of a file content, in the sense of Python's
`content.split("\n")`. -/
def linesOf (s : String) : List String := (splitChar '\n' s.data).map String.mk

/-- The number of distinct commits reachable from the two branches of the
final state that were not present on the base branch initially. -/
def newCommitCount (g0 gf : GitState) (base feature : String) : Nat :=
  ((((gf.branches base).getD []) ++ ((gf.branches feature).getD [])).filter
    (fun i => !((g0.branches base).getD []).contains i)).dedup.length

@[simp] lemma pathName_repo : pathName REPO_PATH = "website" := rfl

lemma head_dropWhile_not {α : Type} (p : α → Bool) :
    ∀ (l : List α) (a : α), (l.dropWhile p).head? = some a → p a = false := by
  intro l
  induction l with
  | nil => intro a h; simp [List.dropWhile] at h
  | cons x xs ih =>
      intro a h
      rw [List.dropWhile] at h
      by_cases hx : p x
      · rw [hx] at h; exact ih a h
      · simp only [Bool.not_eq_true] at hx
        rw [hx] at h
        simp only [List.head?_cons, Option.some.injEq] at h
        rw [← h]; exact hx

/-- The stripped output never ends in a whitespace character. -/
lemma pyStrip_getLast (s : String) (c : Char) :
    (pyStrip s).data.getLast? = some c → isPySpace c = false := by
  intro h
  rw [pyStrip] at h
  simp only [List.getLast?_reverse] at h
  exact head_dropWhile_not isPySpace _ c h

/-- The worktree path flattened to the form the spec states. -/
lemma wtPath_flat (env : Env) :
    wtPath env = env.home ++ "/.almondcoder/website/test-conflict-" ++ env.token := by
  have h : wtPath env
      = pjoin (pjoin (pjoin env.home ".almondcoder") "website")
          ("test-conflict-" ++ env.token) := by
    rw [wtPath]; rfl
  rw [h]
  apply String.ext
  simp [pjoin]

/-- The worktree parent directory flattened to the form the spec states. -/
lemma wtParent_flat (env : Env) :
    wtParent env = env.home ++ "/.almondcoder/website" := by
  have h : wtParent env = pjoin (pjoin env.home ".almondcoder") "website" := by
    rw [wtParent]; rfl
  rw [h]
  apply String.ext
  simp [pjoin]

/-- If the feature branch name already exists, the run does not return
normally: `git worktree add -b` fails and the error propagates. -/
lemma mainRun_collision (env : Env) (g : GitState) (k : EntryKind) (cs ds : List Nat)
    (h1 : env.repoExists = true) (h2 : env.gitEntry = some k)
    (hb : g.current = "main" ∨ g.current = "master")
    (hcs : g.branches g.current = some cs)
    (hcoll : g.branches (almondBranch env.token) = some ds) :
    (mainRun gitExec env g).2 ≠ .normalReturn := by
  simp only [almondBranch] at hcoll
  rcases hb with hb | hb <;> rw [hb] at hcs <;>
    by_cases hw : env.worktreePathExists <;>
    simp [mainRun, stepAfterBranch, runGitStep, run_git_command, emit, emits,
      h1, h2, hb, hw, hcs, hcoll,
      gitExec_show, gitExec_add, gitExec_commit, gitExec_worktree, pjoin]

/-- After a successful run, the two branches together carry exactly three
commits that were not on the base branch before. -/
lemma newCommitCount_spec (g0 gf : GitState) (base feature : String) (cs : List Nat) (n : Nat)
    (hvalid : ∀ i ∈ cs, i < n)
    (h0 : g0.branches base = some cs)
    (hb : gf.branches base = some ((n + 2) :: n :: cs))
    (hf : gf.branches feature = some ((n + 1) :: n :: cs)) :
    newCommitCount g0 gf base feature = 3 := by
  have hmem : ∀ m : Nat, n ≤ m → (cs.contains m) = false := by
    intro m hm
    have : m ∉ cs := fun hx => absurd (hvalid m hx) (by omega)
    simpa using this
  have hfil : cs.filter (fun i => !cs.contains i) = [] := by
    apply List.filter_eq_nil_iff.mpr
    intro a ha
    simpa using ha
  rw [newCommitCount, h0, hb, hf]
  simp only [Option.getD_some, List.cons_append, List.filter_cons, List.filter_append, hfil,
    hmem (n + 2) (by omega), hmem (n + 1) (by omega), hmem n (by omega)]
  simp only [Bool.not_false, if_true, List.append_nil, List.nil_append]
  have hd : ([n + 2, n, n + 1, n] : List Nat).dedup = [n + 2, n + 1, n] := by
    rw [List.dedup_cons_of_not_mem (by simp),
        List.dedup_cons_of_mem (by simp),
        List.dedup_cons_of_not_mem (by simp)]
    simp
  rw [hd]
  rfl

/-- A concrete repository: one branch `main` holding a single commit `0`,
no registered worktrees, next commit name `1`. -/
def gInit : GitState :=
  { branches := fun b => if b = "main" then some [0] else none,
    current := "main",
    worktrees := fun _ => none,
    nextId := 1 }

/-- A concrete valid environment: repository present, `.git` a directory,
token `abcd1234`, no stale worktree directory. -/
def envDir : Env :=
  { repoExists := true, gitEntry := some .dir, home := "/home/tester",
    token := "abcd1234", worktreePathExists := false }

/-- Like `envDir` but `.git` is a file (a linked-worktree checkout). -/
def envFile : Env := { envDir with gitEntry := some .file }

/-- Like `envDir` but a stale directory exists at the worktree path. -/
def envStale : Env := { envDir with worktreePathExists := true }

/-- Like `envDir` but with a different random token, for a second run. -/
def envRun2 : Env := { envDir with token := "deadbeef" }

/-- Like `envDir` but the target directory does not exist. -/
def envNoRepo : Env := { envDir with repoExists := false }

/-- An oracle on which both checkout fallbacks fail and every other
command succeeds, with `feature` as the current branch. -/
def fallbackOracle : List String → Except String String := fun cmd =>
  if cmd = ["git", "checkout", "main"] then .error "error: pathspec main"
  else if cmd = ["git", "checkout", "master"] then .error "error: pathspec master"
  else .ok "feature\n"

/-- An oracle on which `git add` exits non-zero and every other command
succeeds, with `main` as the current branch. -/
def addFailOracle : List String → Except String String := fun cmd =>
  if cmd = ["git", "add", "abc.txt"] then .error "boom" else .ok "main\n"

/-- C2: the four-line fixture content committed on the base branch
(`main_content`) and the one committed on the feature branch
(`almond_content`) agree on line 1 (`Line 1: Initial content`) and line 4
(`Line 4: Final line`) and differ on lines 2 and 3, so merging the two
branches conflicts at the line level. -/
theorem claim_C2 :
    (linesOf almond_content).length = 5 ∧
    (linesOf main_content).length = 5 ∧
    (linesOf almond_content).getD 0 "" = "Line 1: Initial content" ∧
    (linesOf main_content).getD 0 "" = "Line 1: Initial content" ∧
    (linesOf almond_content).getD 3 "" = "Line 4: Final line" ∧
    (linesOf main_content).getD 3 "" = "Line 4: Final line" ∧
    (linesOf almond_content).getD 1 "" ≠ (linesOf main_content).getD 1 "" ∧
    (linesOf almond_content).getD 2 "" ≠ (linesOf main_content).getD 2 "" := by
  decide

/-- C3: when the current branch is neither `main` nor `master` and both
fallback checkouts fail, `main` prints an error and returns normally with
only the three branch-resolution git commands issued, no file written and
no commit attempted. -/
theorem claim_C3 (env : Env) (f : List String → Except String String) (out0 e1 e2 : String)
    (k : EntryKind) (h1 : env.repoExists = true) (h2 : env.gitEntry = some k)
    (hf0 : f ["git", "branch", "--show-current"] = .ok out0)
    (hm : (["main", "master"].contains (pyStrip out0)) = false)
    (hf1 : f ["git", "checkout", "main"] = .error e1)
    (hf2 : f ["git", "checkout", "master"] = .error e2) :
    (mainRun (oracleExec f) env ()).2 = .normalReturn ∧
    (mainRun (oracleExec f) env ()).1.trace =
      [.print "🔧 AlmondCoder Merge Conflict Test Setup (Worktree Version)",
       .print eqLine,
       .print ("✅ Found git repository: " ++ REPO_PATH),
       .gitCmd ["git", "branch", "--show-current"] none,
       .print ("📍 Current branch: " ++ pyStrip out0),
       .print "⚠️  Not on main/master. Switching to main...",
       .gitCmd ["git", "checkout", "main"] none,
       .print ("❌ Git command failed: " ++ joinSpace ["git", "checkout", "main"]),
       .print ("   Error: " ++ e1),
       .gitCmd ["git", "checkout", "master"] none,
       .print ("❌ Git command failed: " ++ joinSpace ["git", "checkout", "master"]),
       .print ("   Error: " ++ e2),
       .print "❌ Could not switch to main/master branch"] ∧
    gitCmdsOf (mainRun (oracleExec f) env ()).1.trace =
      [["git", "branch", "--show-current"], ["git", "checkout", "main"],
       ["git", "checkout", "master"]] ∧
    ((mainRun (oracleExec f) env ()).1.trace.all fun a =>
      match a with
      | .writeFile _ _ => false
      | .gitCmd ["git", "commit", "-m", _] _ => false
      | _ => true) = true := by
  have hm2 : ¬(pyStrip out0 = "main" ∨ pyStrip out0 = "master") := by simpa using hm
  refine ⟨?_, ?_, ?_, ?_⟩ <;>
    simp [mainRun, stepAfterBranch, runGitStep, run_git_command, oracleExec, emit, emits,
      h1, h2, hf0, hf1, hf2, hm2, gitCmdsOf, List.all]

/-- Witness for C3 at a concrete oracle whose current branch is
`feature` and whose two checkouts fail. -/
theorem claim_C3_witness :
    (mainRun (oracleExec fallbackOracle) envDir ()).2 = .normalReturn ∧
    (mainRun (oracleExec fallbackOracle) envDir ()).1.trace =
      [.print "🔧 AlmondCoder Merge Conflict Test Setup (Worktree Version)",
       .print eqLine,
       .print ("✅ Found git repository: " ++ REPO_PATH),
       .gitCmd ["git", "branch", "--show-current"] none,
       .print ("📍 Current branch: " ++ pyStrip "feature\n"),
       .print "⚠️  Not on main/master. Switching to main...",
       .gitCmd ["git", "checkout", "main"] none,
       .print ("❌ Git command failed: " ++ joinSpace ["git", "checkout", "main"]),
       .print ("   Error: " ++ "error: pathspec main"),
       .gitCmd ["git", "checkout", "master"] none,
       .print ("❌ Git command failed: " ++ joinSpace ["git", "checkout", "master"]),
       .print ("   Error: " ++ "error: pathspec master"),
       .print "❌ Could not switch to main/master branch"] ∧
    gitCmdsOf (mainRun (oracleExec fallbackOracle) envDir ()).1.trace =
      [["git", "branch", "--show-current"], ["git", "checkout", "main"],
       ["git", "checkout", "master"]] ∧
    ((mainRun (oracleExec fallbackOracle) envDir ()).1.trace.all fun a =>
      match a with
      | .writeFile _ _ => false
      | .gitCmd ["git", "commit", "-m", _] _ => false
      | _ => true) = true :=
  claim_C3 envDir fallbackOracle "feature\n" "error: pathspec main" "error: pathspec master"
    EntryKind.dir rfl rfl rfl (by decide) rfl rfl

/-- C4: if the target directory does not exist, or exists without a
`.git` entry, `main` prints an error and returns normally — no git
command is invoked and the process exit status is `0`. -/
theorem claim_C4 {σ : Type} (exec : ExecFn σ) (env : Env) (g0 : σ)
    (hpre : env.repoExists = false ∨ env.gitEntry = none) :
    (mainRun exec env g0).2 = .normalReturn ∧
    exitStatus (mainRun exec env g0).2 = 0 ∧
    gitCmdsOf (mainRun exec env g0).1.trace = [] ∧
    (Action.print ("❌ Repository not found: " ++ REPO_PATH) ∈ (mainRun exec env g0).1.trace ∨
     Action.print ("❌ Not a git repository: " ++ REPO_PATH) ∈ (mainRun exec env g0).1.trace) := by
  rcases hpre with h | h
  · refine ⟨?_, ?_, ?_, ?_⟩ <;>
      simp [mainRun, emit, emits, h, gitCmdsOf, exitStatus]
  · by_cases h1 : env.repoExists = false <;>
      refine ⟨?_, ?_, ?_, ?_⟩ <;>
      simp [mainRun, emit, emits, h, h1, gitCmdsOf, exitStatus]

/-- Witness for C4 at a concrete missing target directory. -/
theorem claim_C4_witness :
    (mainRun gitExec envNoRepo gInit).2 = .normalReturn ∧
    exitStatus (mainRun gitExec envNoRepo gInit).2 = 0 ∧
    gitCmdsOf (mainRun gitExec envNoRepo gInit).1.trace = [] ∧
    (Action.print ("❌ Repository not found: " ++ REPO_PATH)
        ∈ (mainRun gitExec envNoRepo gInit).1.trace ∨
     Action.print ("❌ Not a git repository: " ++ REPO_PATH)
        ∈ (mainRun gitExec envNoRepo gInit).1.trace) :=
  claim_C4 gitExec envNoRepo gInit (Or.inl rfl)

/-- C5: whenever a run ends with an uncaught external-command failure, its
trace ends with the failing git command followed by `run_git_command`'s
two diagnostic prints (the joined command and the captured stderr of the
re-raised error) and nothing else: all remaining steps are aborted, the
failing command is not retried, and no action removes anything the
completed steps produced. -/
theorem claim_C5 {σ : Type} (exec : ExecFn σ) (env : Env) (g0 : σ) (e : String)
    (h : (mainRun exec env g0).2 = .raised e) :
    endsWithFailure (mainRun exec env g0).1.trace e :=
  mainRun_raised exec env g0 e h

/-- Witness for C5 at a concrete oracle whose `git add` fails. -/
theorem claim_C5_witness :
    endsWithFailure (mainRun (oracleExec addFailOracle) envDir ()).1.trace "boom" :=
  claim_C5 (oracleExec addFailOracle) envDir () "boom" rfl

/-- C9: `run_git_command` returns the invoked command's standard output
with leading and trailing whitespace stripped (Python's `strip()`), and
the stripped value never ends in a whitespace character — in particular
the branch name `main` compared against `main`/`master` carries no
trailing newline. -/
theorem claim_C9 {σ : Type} (exec : ExecFn σ) (cmd : List String) (cwd : Option String)
    (s : StepState σ) (g2 : σ) (out : String)
    (h : exec s.git cmd cwd = .ok (g2, out)) :
    run_git_command exec cmd cwd s
      = .ok ({ git := g2, trace := s.trace ++ [Action.gitCmd cmd cwd] }, pyStrip out) ∧
    ∀ c, (pyStrip out).data.getLast? = some c → isPySpace c = false := by
  constructor
  · rw [run_git_command]
    have hg : (emit s (Action.gitCmd cmd cwd)).git = s.git := rfl
    rw [hg, h]
    rfl
  · intro c
    exact pyStrip_getLast out c

/-- Witness for C9: the branch query on `gInit` returns `main\n` and
`run_git_command` hands back the stripped `main`. -/
theorem claim_C9_witness :
    run_git_command gitExec ["git", "branch", "--show-current"] none
        (⟨gInit, []⟩ : StepState GitState)
      = .ok (⟨gInit, [Action.gitCmd ["git", "branch", "--show-current"] none]⟩,
             pyStrip "main\n") ∧
    isPySpace 'n' = false :=
  ⟨(claim_C9 gitExec ["git", "branch", "--show-current"] none ⟨gInit, []⟩ gInit "main\n" rfl).1,
   (claim_C9 gitExec ["git", "branch", "--show-current"] none ⟨gInit, []⟩ gInit "main\n" rfl).2
      'n' (by decide)⟩

/-- C10: the version-control precondition only tests that an entry named
`.git` exists, never its kind: with `.git` a plain file (a linked
worktree), the run proceeds to issue all eight git commands and returns
normally. -/
theorem claim_C10 (env : Env) (g0 : GitState) (cs : List Nat)
    (h1 : env.repoExists = true) (h2 : env.gitEntry = some EntryKind.file)
    (hb : g0.current = "main" ∨ g0.current = "master")
    (hcs : g0.branches g0.current = some cs)
    (hna : g0.branches (almondBranch env.token) = none)
    (hnw : g0.worktrees (wtPath env) = none) :
    (mainRun gitExec env g0).2 = .normalReturn ∧
    gitCmdsOf (mainRun gitExec env g0).1.trace =
      [["git", "branch", "--show-current"],
       ["git", "add", TEST_FILE],
       ["git", "commit", "-m", "Add initial abc.txt file"],
       ["git", "worktree", "add", "-b", almondBranch env.token, wtPath env, g0.current],
       ["git", "add", TEST_FILE],
       ["git", "commit", "-m", "Modify abc.txt in almondcoder branch"],
       ["git", "add", TEST_FILE],
       ["git", "commit", "-m", "Modify abc.txt on main branch (conflicting)"]] := by
  refine ⟨mainRun_spec_result env g0 EntryKind.file cs h1 h2 hb hcs hna hnw, ?_⟩
  rw [mainRun_spec_trace env g0 EntryKind.file cs h1 h2 hb hcs hna hnw]
  by_cases hw : env.worktreePathExists <;>
    simp [specTrace, tracePre, traceMid, traceRm, tracePost, summaryPrints, gitCmdsOf, hw]

/-- Witness for C10 at a concrete linked-worktree checkout. -/
theorem claim_C10_witness :
    (mainRun gitExec envFile gInit).2 = .normalReturn ∧
    gitCmdsOf (mainRun gitExec envFile gInit).1.trace =
      [["git", "branch", "--show-current"],
       ["git", "add", TEST_FILE],
       ["git", "commit", "-m", "Add initial abc.txt file"],
       ["git", "worktree", "add", "-b", almondBranch envFile.token, wtPath envFile,
        gInit.current],
       ["git", "add", TEST_FILE],
       ["git", "commit", "-m", "Modify abc.txt in almondcoder branch"],
       ["git", "add", TEST_FILE],
       ["git", "commit", "-m", "Modify abc.txt on main branch (conflicting)"]] :=
  claim_C10 envFile gInit [0] rfl rfl (Or.inl rfl) rfl rfl rfl

/-- C1 (amended): a single successful run from a valid repository on a
primary branch returns normally and produces exactly one new commit on
the base branch before the worktree step, one new branch matching
`almondcoder/test-conflict-<8-hex-chars>` (and no other new branch), one
new commit on that branch, and one additional new commit on the base
branch — three distinct new commits in total across the two branches (the
initial fixture commit is shared by both). -/
theorem claim_C1 (env : Env) (g0 : GitState) (k : EntryKind) (cs : List Nat)
    (h1 : env.repoExists = true) (h2 : env.gitEntry = some k)
    (hb : g0.current = "main" ∨ g0.current = "master")
    (hcs : g0.branches g0.current = some cs)
    (hna : g0.branches (almondBranch env.token) = none)
    (hnw : g0.worktrees (wtPath env) = none)
    (hvalid : ∀ i ∈ cs, i < g0.nextId)
    (htok : env.token.length = 8 ∧ env.token.data.all isHexDigit) :
    (mainRun gitExec env g0).2 = .normalReturn ∧
    branchPattern (almondBranch env.token) ∧
    (mainRun gitExec env g0).1.git.branches (almondBranch env.token)
      = some ((g0.nextId + 1) :: g0.nextId :: cs) ∧
    (mainRun gitExec env g0).1.git.branches g0.current
      = some ((g0.nextId + 2) :: g0.nextId :: cs) ∧
    (∀ b, b ≠ almondBranch env.token →
      ((mainRun gitExec env g0).1.git.branches b).isSome = (g0.branches b).isSome) ∧
    (mainRun gitExec env g0).1.git.nextId = g0.nextId + 3 ∧
    newCommitCount g0 (mainRun gitExec env g0).1.git g0.current (almondBranch env.token) = 3 := by
  obtain ⟨hcur, hnid, halm, hbase, hwt⟩ :=
    mainRun_spec_state env g0 k cs h1 h2 hb hcs hna hnw
  obtain ⟨hfrB, hfrW⟩ := mainRun_spec_frame env g0 k cs h1 h2 hb hcs hna hnw
  refine ⟨mainRun_spec_result env g0 k cs h1 h2 hb hcs hna hnw,
    ⟨env.token, rfl, htok.1, htok.2⟩, halm, hbase, ?_, hnid, ?_⟩
  · intro b hbne
    by_cases hbc : b = g0.current
    · rw [hbc, hbase, hcs]; rfl
    · rw [hfrB b hbne hbc]
  · exact newCommitCount_spec g0 (mainRun gitExec env g0).1.git g0.current
      (almondBranch env.token) cs g0.nextId hvalid hcs hbase halm

/-- Counterexample for C1 as stated: on a concrete valid repository the
run succeeds with all the enumerated artifacts, but only three distinct
new commits exist across the two branches, not four. -/
theorem claim_C1_counterexample :
    (mainRun gitExec envDir gInit).2 = .normalReturn ∧
    newCommitCount gInit (mainRun gitExec envDir gInit).1.git "main"
      (almondBranch "abcd1234") = 3 ∧
    ¬(newCommitCount gInit (mainRun gitExec envDir gInit).1.git "main"
      (almondBranch "abcd1234") = 4) := by
  decide

/-- Witness for C1 (amended) at the concrete repository `gInit`. -/
theorem claim_C1_witness :
    (mainRun gitExec envDir gInit).2 = .normalReturn ∧
    branchPattern (almondBranch "abcd1234") ∧
    (mainRun gitExec envDir gInit).1.git.branches (almondBranch "abcd1234") = some [2, 1, 0] ∧
    (mainRun gitExec envDir gInit).1.git.branches "main" = some [3, 1, 0] ∧
    ((mainRun gitExec envDir gInit).1.git.branches "develop").isSome
      = (gInit.branches "develop").isSome ∧
    (mainRun gitExec envDir gInit).1.git.nextId = 4 ∧
    newCommitCount gInit (mainRun gitExec envDir gInit).1.git "main"
      (almondBranch "abcd1234") = 3 := by
  have h := claim_C1 envDir gInit EntryKind.dir [0] rfl rfl (Or.inl rfl) rfl rfl rfl
    (by decide) (by decide)
  exact ⟨h.1, h.2.1, h.2.2.1, h.2.2.2.1, h.2.2.2.2.1 "develop" (by decide),
    h.2.2.2.2.2.1, h.2.2.2.2.2.2⟩

/-- C6: when a directory already exists at the computed worktree path, it
is removed recursively immediately before the `git worktree add`, so the
creation is not blocked by a stale directory. -/
theorem claim_C6 (env : Env) (g0 : GitState) (k : EntryKind) (cs : List Nat)
    (h1 : env.repoExists = true) (h2 : env.gitEntry = some k)
    (hb : g0.current = "main" ∨ g0.current = "master")
    (hcs : g0.branches g0.current = some cs)
    (hna : g0.branches (almondBranch env.token) = none)
    (hnw : g0.worktrees (wtPath env) = none)
    (hw : env.worktreePathExists = true) :
    List.IsInfix
      [Action.rmtree (wtPath env),
       Action.gitCmd ["git", "worktree", "add", "-b", almondBranch env.token, wtPath env,
         g0.current] none]
      (mainRun gitExec env g0).1.trace := by
  rw [mainRun_spec_trace env g0 k cs h1 h2 hb hcs hna hnw]
  refine ⟨tracePre g0.current ++ [Action.mkdirParents (wtParent env)] ++ traceMid env ++
    [Action.print ("⚠️  Removing existing worktree directory: " ++ wtPath env)],
    tracePost env g0.current, ?_⟩
  simp [specTrace, traceRm, hw]

/-- Witness for C6 at a concrete run with a stale worktree directory. -/
theorem claim_C6_witness :
    List.IsInfix
      [Action.rmtree (wtPath envStale),
       Action.gitCmd ["git", "worktree", "add", "-b", almondBranch envStale.token,
         wtPath envStale, gInit.current] none]
      (mainRun gitExec envStale gInit).1.trace :=
  claim_C6 envStale gInit EntryKind.dir [0] rfl rfl (Or.inl rfl) rfl rfl rfl rfl

/-- C7: starting from a valid repository, the first run succeeds; a
second run over the resulting state succeeds exactly when its random
token differs from the first run's (same branch name means
`git worktree add -b` fails), so two successive successful runs have
distinct feature branches and the second hits no worktree-path
collision. -/
theorem claim_C7 (env1 env2 : Env) (g0 : GitState) (k1 k2 : EntryKind) (cs : List Nat)
    (h11 : env1.repoExists = true) (h21 : env1.gitEntry = some k1)
    (h12 : env2.repoExists = true) (h22 : env2.gitEntry = some k2)
    (hhome : env2.home = env1.home)
    (hb : g0.current = "main" ∨ g0.current = "master")
    (hcs : g0.branches g0.current = some cs)
    (hna1 : g0.branches (almondBranch env1.token) = none)
    (hnw1 : g0.worktrees (wtPath env1) = none)
    (hna2 : g0.branches (almondBranch env2.token) = none)
    (hnw2 : g0.worktrees (wtPath env2) = none) :
    (mainRun gitExec env1 g0).2 = .normalReturn ∧
    ((mainRun gitExec env2 (mainRun gitExec env1 g0).1.git).2 = .normalReturn →
      env1.token ≠ env2.token) ∧
    (env1.token ≠ env2.token →
      (mainRun gitExec env2 (mainRun gitExec env1 g0).1.git).2 = .normalReturn) := by
  obtain ⟨hcur, hnid, halm, hbase, hwt⟩ :=
    mainRun_spec_state env1 g0 k1 cs h11 h21 hb hcs hna1 hnw1
  obtain ⟨hfrB, hfrW⟩ := mainRun_spec_frame env1 g0 k1 cs h11 h21 hb hcs hna1 hnw1
  have hb2 : (mainRun gitExec env1 g0).1.git.current = "main" ∨
      (mainRun gitExec env1 g0).1.git.current = "master" := by rw [hcur]; exact hb
  have hcs2 : (mainRun gitExec env1 g0).1.git.branches (mainRun gitExec env1 g0).1.git.current
      = some ((g0.nextId + 2) :: g0.nextId :: cs) := by rw [hcur]; exact hbase
  refine ⟨mainRun_spec_result env1 g0 k1 cs h11 h21 hb hcs hna1 hnw1, ?_, ?_⟩
  · intro hsucc hteq
    have hcoll : (mainRun gitExec env1 g0).1.git.branches (almondBranch env2.token)
        = some ((g0.nextId + 1) :: g0.nextId :: cs) := by rw [← hteq]; exact halm
    exact mainRun_collision env2 (mainRun gitExec env1 g0).1.git k2 _ _ h12 h22 hb2 hcs2
      hcoll hsucc
  · intro hne
    have halne : almondBranch env2.token ≠ almondBranch env1.token := by
      intro he
      simp only [almondBranch] at he
      exact hne (strAppend_left_cancel he).symm
    have hcurne : almondBranch env2.token ≠ g0.current := by
      rcases hb with hbx | hbx <;> rw [hbx] <;> simp [almondBranch]
    have hna2' : (mainRun gitExec env1 g0).1.git.branches (almondBranch env2.token) = none := by
      rw [hfrB _ halne hcurne]; exact hna2
    have hwne : wtPath env2 ≠ wtPath env1 := by
      intro he
      apply hne
      simp only [wtPath, pjoin, hhome] at he
      exact (strAppend_left_cancel (strAppend_left_cancel he)).symm
    have hnw2' : (mainRun gitExec env1 g0).1.git.worktrees (wtPath env2) = none := by
      rw [hfrW _ hwne]; exact hnw2
    exact mainRun_spec_result env2 (mainRun gitExec env1 g0).1.git k2 _ h12 h22 hb2 hcs2
      hna2' hnw2'

/-- Witness for C7 at two concrete successive runs with tokens
`abcd1234` and `deadbeef`. -/
theorem claim_C7_witness :
    (mainRun gitExec envDir gInit).2 = .normalReturn ∧
    ((mainRun gitExec envRun2 (mainRun gitExec envDir gInit).1.git).2 = .normalReturn →
      envDir.token ≠ envRun2.token) ∧
    (envDir.token ≠ envRun2.token →
      (mainRun gitExec envRun2 (mainRun gitExec envDir gInit).1.git).2 = .normalReturn) :=
  claim_C7 envDir envRun2 gInit EntryKind.dir EntryKind.dir [0] rfl rfl rfl rfl rfl
    (Or.inl rfl) rfl rfl rfl rfl rfl

/-- C8: the secondary working tree is created at
`<home>/.almondcoder/<repo-name>/test-conflict-<token>` (with `website`
the final component of the target path), and the parent directory
`<home>/.almondcoder/<repo-name>` is created, ancestors included, before
the `git worktree add` runs. -/
theorem claim_C8 (env : Env) (g0 : GitState) (k : EntryKind) (cs : List Nat)
    (h1 : env.repoExists = true) (h2 : env.gitEntry = some k)
    (hb : g0.current = "main" ∨ g0.current = "master")
    (hcs : g0.branches g0.current = some cs)
    (hna : g0.branches (almondBranch env.token) = none)
    (hnw : g0.worktrees (wtPath env) = none) :
    wtPath env = env.home ++ "/.almondcoder/website/test-conflict-" ++ env.token ∧
    wtParent env = env.home ++ "/.almondcoder/website" ∧
    ∃ l1 l2 l3, (mainRun gitExec env g0).1.trace =
      l1 ++ [Action.mkdirParents (wtParent env)] ++ l2 ++
      [Action.gitCmd ["git", "worktree", "add", "-b", almondBranch env.token, wtPath env,
        g0.current] none] ++ l3 := by
  refine ⟨wtPath_flat env, wtParent_flat env, ?_⟩
  rw [mainRun_spec_trace env g0 k cs h1 h2 hb hcs hna hnw]
  refine ⟨tracePre g0.current,
    traceMid env ++ (if env.worktreePathExists then traceRm env else []),
    tracePost env g0.current, ?_⟩
  simp [specTrace]

/-- Witness for C8 at the concrete environment `envDir`. -/
theorem claim_C8_witness :
    wtPath envDir = envDir.home ++ "/.almondcoder/website/test-conflict-" ++ envDir.token ∧
    wtParent envDir = envDir.home ++ "/.almondcoder/website" ∧
    ∃ l1 l2 l3, (mainRun gitExec envDir gInit).1.trace =
      l1 ++ [Action.mkdirParents (wtParent envDir)] ++ l2 ++
      [Action.gitCmd ["git", "worktree", "add", "-b", almondBranch envDir.token, wtPath envDir,
        gInit.current] none] ++ l3 :=
  claim_C8 envDir gInit EntryKind.dir [0] rfl rfl (Or.inl rfl) rfl rfl rfl

end CreateTestConflict
